import Mathlib

/-!
Verification of the documented contract of the `observeinc/go-bindings`
repository (Undo Live Recorder / undoex annotation C API).

The repository ships only public header files (`undolr/undolr.h`,
`undolr/undolr_deprecated.h`, `undoex/undoex-annotations.h`,
`undoex/undoex-test-annotations.h`, `common/common.h`): function
prototypes, enums and opaque handle typedefs, with doc comments that
describe the behaviour of an engine implemented outside the repository.
Consequently every operation below is a model of the documented
behaviour, built from the spec and the headers' doc comments, over an
explicit recorder state.  Machine integers are modelled as `Int`/`Nat`;
C return-plus-`errno` conventions are modelled as a return value paired
with an error signal; `NULL`-able C pointers are modelled as `Option`.
-/

namespace UndoBindings

/-- Enumeration `undolr_error_t` from `undolr/undolr.h`: the reason for
failing to start recording. -/
inductive undolr_error_t
  | NONE
  | NO_ATTACH_YAMA
  | CANNOT_ATTACH
  | LIBRARY_SEARCH_FAILED
  | CANNOT_RECORD
  | NO_THREAD_INFO
  | PKEYS_IN_USE
deriving DecidableEq, Repr

/-- The numeric values assigned to `undolr_error_t` in `undolr/undolr.h`. -/
def undolr_error_code : undolr_error_t → Int
  | .NONE => 0
  | .NO_ATTACH_YAMA => 1
  | .CANNOT_ATTACH => 2
  | .LIBRARY_SEARCH_FAILED => 3
  | .CANNOT_RECORD => 4
  | .NO_THREAD_INFO => 5
  | .PKEYS_IN_USE => 6

/-- Enumeration `undoex_annotation_content_type_t` from
`undoex/undoex-annotations.h`: the type of text data stored in a recording. -/
inductive undoex_annotation_content_type_t
  | JSON
  | XML
  | UNSTRUCTURED_TEXT
deriving DecidableEq, Repr

/-- The numeric values assigned to `undoex_annotation_content_type_t` in
`undoex/undoex-annotations.h`. -/
def content_type_code : undoex_annotation_content_type_t → Int
  | .JSON => 101
  | .XML => 102
  | .UNSTRUCTURED_TEXT => 100

/-- Enumeration `undoex_test_result_t` from `undoex/undoex-test-annotations.h`:
the result of a test.  Values are kept in sync with the debugger. -/
inductive undoex_test_result_t
  | UNKNOWN
  | SUCCESS
  | FAILURE
  | SKIPPED
  | OTHER
deriving DecidableEq, Repr

/-- The numeric values of `undoex_test_result_t` (C default enumeration,
starting at 0). -/
def test_result_code : undoex_test_result_t → Int
  | .UNKNOWN => 0
  | .SUCCESS => 1
  | .FAILURE => 2
  | .SKIPPED => 3
  | .OTHER => 4

/-- The content associated with an annotation: nothing, raw bytes, typed
text, or a 64-bit integer (spec section 3, "Annotation"). -/
inductive AnnContent
  | noData
  | raw (data : List Nat)
  | text (ty : undoex_annotation_content_type_t) (s : String)
  | intVal (v : Int)
deriving DecidableEq, Repr

/-- One annotation record in the event log: a name, a detail (a `NULL` C
detail is normalised to the empty string) and optional content
(spec section 3, "Annotation"). -/
structure AnnotationEntry where
  name : String
  detail : String
  content : AnnContent
deriving DecidableEq, Repr

/-- An error signal, standing for the C `-1` return plus `errno`
taxonomy of spec section 7.  `notRecording` stands for `errno == ENOTSUP`,
`invalidArgument` for `errno == EINVAL`. -/
inductive ErrSignal
  | noError
  | notRecording
  | alreadyRecording
  | invalidArgument
  | alreadyInProgress
  | invalidHandle
deriving DecidableEq, Repr

/-- The state of one asynchronous save operation (spec section 3,
"SaveOperation"): in progress with a percentage (`-1` when unknown), or
complete with a recorded result code. -/
inductive SaveState
  | inProgress (progress : Int)
  | complete (result : Int)
deriving DecidableEq, Repr

/-- The in-memory data behind one `undolr_recording_context_t` handle,
valid between `undolr_stop` and `undolr_discard` (spec section 3,
"RecordingContext"): the captured log snapshot, the optional
asynchronous save operation, and the count of notification bytes
written to the context's select descriptor. -/
structure RecordingContextData where
  log : List AnnotationEntry
  saveOp : Option SaveState
  notifyBytes : Nat
deriving DecidableEq, Repr

/-- Modelled from the spec: the process-wide recorder state behind the
`undolr_*`/`undoex_*` API (spec sections 3 and 5).  The engine holding
this state is implemented outside the repository; only its documented
contract is visible.  `contexts` maps live handles (numbers standing
for the opaque `undolr_recording_context_t` pointers) to their data;
`openFds` holds the select descriptors currently open (one per live
context, numbered by its handle); `savedFiles` records each completed
save as the file name and the serialized log snapshot. -/
structure LRState where
  recording : Bool
  liveLog : List AnnotationEntry
  contexts : List (Nat × RecordingContextData)
  nextHandle : Nat
  openFds : List Nat
  shmemFilename : Option String
  shmemMaxSize : Nat
  pendingTerminationSave : Option String
  savedFiles : List (String × List AnnotationEntry)
deriving DecidableEq, Repr

/-- The initial recorder state of a freshly launched process: not
recording, no contexts, no configuration. -/
def initState : LRState :=
  { recording := false
    liveLog := []
    contexts := []
    nextHandle := 0
    openFds := []
    shmemFilename := none
    shmemMaxSize := 0
    pendingTerminationSave := none
    savedFiles := [] }

/-- Look up the data of handle `h` in a context table (the model of
dereferencing an `undolr_recording_context_t`; an unknown handle is a
stale or never-issued pointer). -/
def findCtx (h : Nat) : List (Nat × RecordingContextData) → Option RecordingContextData
  | [] => none
  | p :: t => if p.1 = h then some p.2 else findCtx h t

/-- Replace the data of handle `h` in a context table. -/
def updateCtx (l : List (Nat × RecordingContextData)) (h : Nat)
    (c : RecordingContextData) : List (Nat × RecordingContextData) :=
  l.map (fun p => if p.1 = h then (h, c) else p)

/-- Remove handle `h` from a context table. -/
def removeCtx (l : List (Nat × RecordingContextData)) (h : Nat) :
    List (Nat × RecordingContextData) :=
  match l with
  | [] => []
  | p :: t => if p.1 = h then removeCtx t h else p :: removeCtx t h

/-- Close descriptor `h`: remove it from the open-descriptor table. -/
def closeFd (l : List Nat) (h : Nat) : List Nat :=
  match l with
  | [] => []
  | f :: t => if f = h then closeFd t h else f :: closeFd t h

/-- Result of a C call that returns an `int` status and sets `errno`:
the return value, the error signal, and the recorder state afterwards. -/
structure OpResult where
  ret : Int
  err : ErrSignal
  state : LRState
deriving DecidableEq, Repr

/-- Result of `undolr_stop`: status plus the context handle stored
through the out-pointer (when a non-`NULL` pointer was passed). -/
structure StopResult where
  ret : Int
  err : ErrSignal
  ctx : Option Nat
  state : LRState
deriving DecidableEq, Repr

/-- Result of `undolr_poll_saving_complete`: status, the `*complete`
flag, and the `*result` out-value (`none` when not updated). -/
structure PollResult where
  ret : Int
  err : ErrSignal
  complete : Int
  result : Option Int
  state : LRState
deriving DecidableEq, Repr

/-- Result of `undolr_poll_saving_progress`: status, the `*complete`
flag, the `*progress` out-value and the `*result` out-value (`none`
when not updated). -/
structure PollProgressResult where
  ret : Int
  err : ErrSignal
  complete : Int
  progress : Option Int
  result : Option Int
  state : LRState
deriving DecidableEq, Repr

/-- Result of `undolr_get_select_descriptor`: status plus the returned
file descriptor. -/
structure FdResult where
  ret : Int
  err : ErrSignal
  fd : Option Nat
  state : LRState
deriving DecidableEq, Repr

/-- Modelled from the spec: `undolr_start` (`undolr/undolr.h` lines
79-95; implementation outside the repository).  Fails with an
already-recording signal when a session is active, leaving the state
exactly as before; otherwise creates the singleton active session with
a fresh, empty live log. -/
def undolr_start (s : LRState) : OpResult :=
  if s.recording then
    { ret := -1, err := .alreadyRecording, state := s }
  else
    { ret := 0, err := .noError, state := { s with recording := true, liveLog := [] } }

/-- Modelled from the spec: `undolr_stop` (`undolr/undolr.h` lines
102-113; implementation outside the repository).  `retain` models
passing a non-`NULL` context out-pointer.  Stopping fails when not
recording; on success it cancels any pending termination save, and
either hands the captured log to a fresh retained context (opening its
notification descriptor) or discards it immediately. -/
def undolr_stop (s : LRState) (retain : Bool) : StopResult :=
  if s.recording then
    if retain then
      { ret := 0, err := .noError, ctx := some s.nextHandle
        state :=
          { s with
            recording := false
            liveLog := []
            pendingTerminationSave := none
            contexts := s.contexts ++
              [(s.nextHandle, { log := s.liveLog, saveOp := none, notifyBytes := 0 })]
            openFds := s.openFds ++ [s.nextHandle]
            nextHandle := s.nextHandle + 1 } }
    else
      { ret := 0, err := .noError, ctx := none
        state :=
          { s with recording := false, liveLog := [], pendingTerminationSave := none } }
  else
    { ret := -1, err := .notRecording, ctx := none, state := s }

/-- Modelled from the spec: `undolr_save` (`undolr/undolr.h` lines
115-130; implementation outside the repository).  Valid only while a
session is active; serializes the live log up to the current point as
an independent snapshot, without stopping or altering the ongoing
recording. -/
def undolr_save (s : LRState) (filename : String) : OpResult :=
  if s.recording then
    { ret := 0, err := .noError
      state := { s with savedFiles := s.savedFiles ++ [(filename, s.liveLog)] } }
  else
    { ret := -1, err := .notRecording, state := s }

/-- Modelled from the spec: `undolr_save_async` (`undolr/undolr.h`
lines 132-147; implementation outside the repository).  Rejects an
unknown (e.g. discarded) handle; rejects a context whose previous
asynchronous save has not completed, leaving that save untouched;
otherwise atomically starts a new save operation in progress. -/
def undolr_save_async (s : LRState) (h : Nat) (filename : String) : OpResult :=
  match findCtx h s.contexts with
  | none => { ret := -1, err := .invalidHandle, state := s }
  | some c =>
    match c.saveOp with
    | some ( SaveState.inProgress _) =>
        { ret := -1, err := .alreadyInProgress, state := s }
    | _ =>
        { ret := 0, err := .noError
          state :=
            { s with contexts :=
                updateCtx s.contexts h { c with saveOp := some (SaveState.inProgress 0) } } }

/-- Modelled from the spec: the background save worker finishing the
asynchronous save of context `h` with result code `result` (spec
sections 4.2 and 5; the worker runs outside the API calls).  The save
operation transitions into `Complete` and exactly one notification
byte is written to the context's select descriptor; on a successful
result the serialized snapshot is recorded as a saved file.  On a
context without an in-progress save this event cannot occur and the
state is unchanged. -/
def undolr_save_completes (s : LRState) (h : Nat) (filename : String)
    (result : Int) : LRState :=
  match findCtx h s.contexts with
  | none => s
  | some c =>
    match c.saveOp with
    | some ( SaveState.inProgress _) =>
        { s with
          contexts := updateCtx s.contexts h
            { c with saveOp := some (SaveState.complete result)
                     notifyBytes := c.notifyBytes + 1 }
          savedFiles :=
            if result = 0 then s.savedFiles ++ [(filename, c.log)] else s.savedFiles }
    | _ => s

/-- Modelled from the spec: `undolr_poll_saving_complete`
(`undolr/undolr.h` lines 149-167; implementation outside the
repository).  A non-blocking read of the save state: fails on an
unknown handle; fails (status undeterminable) when no asynchronous
save was started; reports `*complete = 0` while in progress; after
completion reports `*complete ≠ 0` and the recorded result. -/
def undolr_poll_saving_complete (s : LRState) (h : Nat) : PollResult :=
  match findCtx h s.contexts with
  | none => { ret := -1, err := .invalidHandle, complete := 0, result := none, state := s }
  | some c =>
    match c.saveOp with
    | none => { ret := -1, err := .invalidArgument, complete := 0, result := none, state := s }
    | some ( SaveState.inProgress _) =>
        { ret := 0, err := .noError, complete := 0, result := none, state := s }
    | some ( SaveState.complete r) =>
        { ret := 0, err := .noError, complete := 1, result := some r, state := s }

/-- Modelled from the spec: `undolr_poll_saving_progress`
(`undolr/undolr.h` lines 169-193; implementation outside the
repository).  Like `undolr_poll_saving_complete` but also reporting
the rounded-down progress percentage while the save is in progress. -/
def undolr_poll_saving_progress (s : LRState) (h : Nat) : PollProgressResult :=
  match findCtx h s.contexts with
  | none =>
      { ret := -1, err := .invalidHandle, complete := 0, progress := none
        result := none, state := s }
  | some c =>
    match c.saveOp with
    | none =>
        { ret := -1, err := .invalidArgument, complete := 0, progress := none
          result := none, state := s }
    | some ( SaveState.inProgress p) =>
        { ret := 0, err := .noError, complete := 0, progress := some p
          result := none, state := s }
    | some ( SaveState.complete r) =>
        { ret := 0, err := .noError, complete := 1, progress := none
          result := some r, state := s }

/-- Modelled from the spec: `undolr_get_select_descriptor`
(`undolr/undolr.h` lines 195-210; implementation outside the
repository).  Returns the context's notification descriptor (numbered
by its handle in this model); fails with an invalid-handle signal on
an unknown or discarded context. -/
def undolr_get_select_descriptor (s : LRState) (h : Nat) : FdResult :=
  match findCtx h s.contexts with
  | none => { ret := -1, err := .invalidHandle, fd := none, state := s }
  | some _ => { ret := 0, err := .noError, fd := some h, state := s }

/-- Modelled from the spec: `undolr_discard` (`undolr/undolr.h` lines
212-221; implementation outside the repository).  Rejects an unknown
(already discarded) handle; rejects a context whose asynchronous save
is still in progress (spec section 5); otherwise frees the context's
resources: the context data is released and its select descriptor is
closed. -/
def undolr_discard (s : LRState) (h : Nat) : OpResult :=
  match findCtx h s.contexts with
  | none => { ret := -1, err := .invalidHandle, state := s }
  | some c =>
    match c.saveOp with
    | some ( SaveState.inProgress _) =>
        { ret := -1, err := .alreadyInProgress, state := s }
    | _ =>
        { ret := 0, err := .noError
          state :=
            { s with contexts := removeCtx s.contexts h
                     openFds := closeFd s.openFds h } }

/-- Modelled from the spec: `undolr_save_on_termination`
(`undolr/undolr.h` lines 223-236; implementation outside the
repository).  Requires an active session; registers a deferred save to
run at process exit. -/
def undolr_save_on_termination (s : LRState) (filename : String) : OpResult :=
  if s.recording then
    { ret := 0, err := .noError, state := { s with pendingTerminationSave := some filename } }
  else
    { ret := -1, err := .notRecording, state := s }

/-- Modelled from the spec: `undolr_save_on_termination_cancel`
(`undolr/undolr.h` lines 238-243; implementation outside the
repository).  Idempotently removes any registered termination save. -/
def undolr_save_on_termination_cancel (s : LRState) : OpResult :=
  { ret := 0, err := .noError, state := { s with pendingTerminationSave := none } }

/-- Whether a path carries the `.shmem` extension required of a shared
memory log filename (`undolr/undolr.h` lines 301-305), as a suffix
test on the character list. -/
def hasShmemExt (f : String) : Bool :=
  List.isSuffixOf (".shmem".toList) f.toList

/-- Modelled from the spec: `undolr_shmem_log_filename_set`
(`undolr/undolr.h` lines 272-309; implementation outside the
repository).  `none` models a `NULL` filename, disabling the feature.
Fails with `EINVAL` when recording has already started, or when a
non-`NULL` filename lacks the `.shmem` extension. -/
def undolr_shmem_log_filename_set (s : LRState) (filename : Option String) : OpResult :=
  if s.recording then
    { ret := -1, err := .invalidArgument, state := s }
  else
    match filename with
    | none => { ret := 0, err := .noError, state := { s with shmemFilename := none } }
    | some f =>
      if hasShmemExt f then
        { ret := 0, err := .noError, state := { s with shmemFilename := some f } }
      else
        { ret := -1, err := .invalidArgument, state := s }

/-- Modelled from the spec: `undolr_shmem_log_size_set`
(`undolr/undolr.h` lines 326-342; implementation outside the
repository).  Must be called before recording starts or it fails with
`EINVAL`. -/
def undolr_shmem_log_size_set (s : LRState) (max_size : Nat) : OpResult :=
  if s.recording then
    { ret := -1, err := .invalidArgument, state := s }
  else
    { ret := 0, err := .noError, state := { s with shmemMaxSize := max_size } }

/-- Normalise a C `detail` argument: a `NULL` detail is equivalent to the
empty string (`undoex/undoex-annotations.h` lines 33-34). -/
def normDetail : Option String → String
  | none => ""
  | some d => d

/-- Modelled from the spec: the annotation channel shared by all
`undoex_*` add calls (spec section 4.4; implementation outside the
repository).  While a session is active the entry is appended at the
current point of the live log; otherwise the call fails with
`errno == ENOTSUP` (a not-recording signal) and the state is
unchanged. -/
def addAnnEntry (s : LRState) (a : AnnotationEntry) : OpResult :=
  if s.recording then
    { ret := 0, err := .noError, state := { s with liveLog := s.liveLog ++ [a] } }
  else
    { ret := -1, err := .notRecording, state := s }

/-- Modelled from the spec: `undoex_annotation_add_raw_data`
(`undoex/undoex-annotations.h` lines 58-83; implementation outside the
repository).  `raw_data = none` models a `NULL` buffer, storing the
annotation without content; the length argument is ignored then and
otherwise carried by the byte list. -/
def undoex_annotation_add_raw_data (s : LRState) (name : String)
    (detail : Option String) (raw_data : Option (List Nat)) : OpResult :=
  addAnnEntry s
    { name := name, detail := normDetail detail
      content := match raw_data with
        | none => AnnContent.noData
        | some d => AnnContent.raw d }

/-- Modelled from the spec: `undoex_annotation_add_text`
(`undoex/undoex-annotations.h` lines 85-110; implementation outside
the repository).  `text = none` models a `NULL` string. -/
def undoex_annotation_add_text (s : LRState) (name : String)
    (detail : Option String) (content_type : undoex_annotation_content_type_t)
    (text : Option String) : OpResult :=
  addAnnEntry s
    { name := name, detail := normDetail detail
      content := match text with
        | none => AnnContent.noData
        | some t => AnnContent.text content_type t }

/-- Modelled from the spec: `undoex_annotation_add_int`
(`undoex/undoex-annotations.h` lines 112-127; implementation outside
the repository). -/
def undoex_annotation_add_int (s : LRState) (name : String)
    (detail : Option String) (value : Int) : OpResult :=
  addAnnEntry s
    { name := name, detail := normDetail detail, content := AnnContent.intVal value }

/-- The object behind the opaque `undoex_test_annotation_t` handle
(spec section 3, "TestAnnotation"): it carries the test name used as
the annotation name of every lifecycle call, and whether a run suffix
was requested to disambiguate repeated runs. -/
structure TestAnnotationObj where
  testName : String
  addRunSuffix : Bool
deriving DecidableEq, Repr

/-- Modelled from the spec: `undoex_test_annotation_new`
(`undoex/undoex-test-annotations.h` lines 41-62; implementation
outside the repository).  Allocates the test-annotation object; it
succeeds regardless of whether a recording session is active and does
not touch the recorder state (allocation failure, the only documented
failure, is outside this model). -/
def undoex_test_annotation_new (s : LRState) (base_test_name : String)
    (add_run_suffix : Bool) : Option TestAnnotationObj × LRState :=
  (some { testName := base_test_name, addRunSuffix := add_run_suffix }, s)

/-- Modelled from the spec: `undoex_test_annotation_free`
(`undoex/undoex-test-annotations.h` lines 64-72; implementation
outside the repository).  Releases the object; it succeeds regardless
of session state and does not touch the recorder state. -/
def undoex_test_annotation_free (s : LRState) (_ta : TestAnnotationObj) : LRState :=
  s

/-- Modelled from the spec: `undoex_test_annotation_start`
(`undoex/undoex-test-annotations.h` lines 74-88; implementation
outside the repository).  Emits one annotation named after the test
with detail `"u-test-start"` and no data. -/
def undoex_test_annotation_start (s : LRState) (ta : TestAnnotationObj) : OpResult :=
  addAnnEntry s { name := ta.testName, detail := "u-test-start", content := .noData }

/-- Modelled from the spec: `undoex_test_annotation_end`
(`undoex/undoex-test-annotations.h` lines 90-110; implementation
outside the repository).  Emits one annotation named after the test
with detail `"u-test-end"` and no data; the object stays usable
afterwards. -/
def undoex_test_annotation_end (s : LRState) (ta : TestAnnotationObj) : OpResult :=
  addAnnEntry s { name := ta.testName, detail := "u-test-end", content := .noData }

/-- Modelled from the spec: `undoex_test_annotation_set_result`
(`undoex/undoex-test-annotations.h` lines 112-133; implementation
outside the repository).  Emits one annotation named after the test
with detail `"u-test-result"`, storing the result as its data. -/
def undoex_test_annotation_set_result (s : LRState) (ta : TestAnnotationObj)
    (test_result : undoex_test_result_t) : OpResult :=
  addAnnEntry s
    { name := ta.testName, detail := "u-test-result"
      content := AnnContent.intVal (test_result_code test_result) }

/-- Modelled from the spec: `undoex_test_annotation_set_output`
(`undoex/undoex-test-annotations.h` lines 135-153; implementation
outside the repository).  Emits one annotation named after the test
with detail `"u-test-output"`, storing the typed output as its data. -/
def undoex_test_annotation_set_output (s : LRState) (ta : TestAnnotationObj)
    (content_type : undoex_annotation_content_type_t) (output : String) : OpResult :=
  addAnnEntry s
    { name := ta.testName, detail := "u-test-output"
      content := AnnContent.text content_type output }

/-- Modelled from the spec: `undoex_test_annotation_add_raw_data`
(`undoex/undoex-test-annotations.h` lines 155-178; implementation
outside the repository).  The caller-supplied detail cannot be `NULL`
here. -/
def undoex_test_annotation_add_raw_data (s : LRState) (ta : TestAnnotationObj)
    (detail : String) (raw_data : Option (List Nat)) : OpResult :=
  addAnnEntry s
    { name := ta.testName, detail := detail
      content := match raw_data with
        | none => AnnContent.noData
        | some d => AnnContent.raw d }

/-- Modelled from the spec: `undoex_test_annotation_add_text`
(`undoex/undoex-test-annotations.h` lines 180-201; implementation
outside the repository). -/
def undoex_test_annotation_add_text (s : LRState) (ta : TestAnnotationObj)
    (detail : String) (content_type : undoex_annotation_content_type_t)
    (text : Option String) : OpResult :=
  addAnnEntry s
    { name := ta.testName, detail := detail
      content := match text with
        | none => AnnContent.noData
        | some t => AnnContent.text content_type t }

/-- Modelled from the spec: `undoex_test_annotation_add_int`
(`undoex/undoex-test-annotations.h` lines 203-221; implementation
outside the repository). -/
def undoex_test_annotation_add_int (s : LRState) (ta : TestAnnotationObj)
    (detail : String) (value : Int) : OpResult :=
  addAnnEntry s
    { name := ta.testName, detail := detail, content := AnnContent.intVal value }

/-- Modelled from the spec: `undolr_recording_start`
(`undolr/undolr_deprecated.h` lines 26-33; implementation outside the
repository).  Per its own doc comment: it behaves identically to
`undolr_start` except that when recording is already in operation it
returns zero (success) instead of `-1`. -/
def undolr_recording_start (s : LRState) : OpResult :=
  if s.recording then
    { ret := 0, err := .noError, state := s }
  else
    { ret := 0, err := .noError, state := { s with recording := true, liveLog := [] } }

/-- Modelled from the spec: `undolr_recording_stop`
(`undolr/undolr_deprecated.h` lines 35-41; implementation outside the
repository).  Per its own doc comment: it stops recording and
discards the recording context without saving, like
`undolr_stop(NULL)`. -/
def undolr_recording_stop (s : LRState) : OpResult :=
  if s.recording then
    { ret := 0, err := .noError
      state :=
        { s with recording := false, liveLog := [], pendingTerminationSave := none } }
  else
    { ret := -1, err := .notRecording, state := s }

/-- One invocation of the modelled API, for quantifying over operation
sequences.  Every state-bearing operation of the modelled surface is
represented, together with the background completion event of an
asynchronous save. -/
inductive LROp
  | opStart
  | opStop (retain : Bool)
  | opSave (filename : String)
  | opSaveAsync (h : Nat) (filename : String)
  | opSaveCompletes (h : Nat) (filename : String) (result : Int)
  | opPollComplete (h : Nat)
  | opPollProgress (h : Nat)
  | opGetFd (h : Nat)
  | opDiscard (h : Nat)
  | opSaveOnTermination (filename : String)
  | opSaveOnTerminationCancel
  | opShmemFilenameSet (filename : Option String)
  | opShmemSizeSet (max_size : Nat)
  | opAddRawData (name : String) (detail : Option String) (d : Option (List Nat))
  | opAddText (name : String) (detail : Option String)
      (ty : undoex_annotation_content_type_t) (t : Option String)
  | opAddInt (name : String) (detail : Option String) (v : Int)
  | opTestNew (base : String) (suffix : Bool)
  | opTestFree (ta : TestAnnotationObj)
  | opTestStart (ta : TestAnnotationObj)
  | opTestEnd (ta : TestAnnotationObj)
  | opTestSetResult (ta : TestAnnotationObj) (r : undoex_test_result_t)
  | opTestSetOutput (ta : TestAnnotationObj)
      (ty : undoex_annotation_content_type_t) (out : String)
  | opTestAddRawData (ta : TestAnnotationObj) (detail : String) (d : Option (List Nat))
  | opTestAddText (ta : TestAnnotationObj) (detail : String)
      (ty : undoex_annotation_content_type_t) (t : Option String)
  | opTestAddInt (ta : TestAnnotationObj) (detail : String) (v : Int)
  | opRecordingStart
  | opRecordingStop
deriving DecidableEq, Repr

/-- The state transition of one modelled API invocation (the returned
values are dropped; they are recovered by applying the operation's
definition directly). -/
def step (s : LRState) : LROp → LRState
  | .opStart => (undolr_start s).state
  | .opStop retain => (undolr_stop s retain).state
  | .opSave fn => (undolr_save s fn).state
  | .opSaveAsync h fn => (undolr_save_async s h fn).state
  | .opSaveCompletes h fn r => undolr_save_completes s h fn r
  | .opPollComplete h => (undolr_poll_saving_complete s h).state
  | .opPollProgress h => (undolr_poll_saving_progress s h).state
  | .opGetFd h => (undolr_get_select_descriptor s h).state
  | .opDiscard h => (undolr_discard s h).state
  | .opSaveOnTermination fn => (undolr_save_on_termination s fn).state
  | .opSaveOnTerminationCancel => (undolr_save_on_termination_cancel s).state
  | .opShmemFilenameSet fn => (undolr_shmem_log_filename_set s fn).state
  | .opShmemSizeSet n => (undolr_shmem_log_size_set s n).state
  | .opAddRawData n d bytes => ( undoex_annotation_add_raw_data s n d bytes).state
  | .opAddText n d ty t => ( undoex_annotation_add_text s n d ty t).state
  | .opAddInt n d v => ( undoex_annotation_add_int s n d v).state
  | .opTestNew base suffix => ( undoex_test_annotation_new s base suffix).2
  | .opTestFree ta => undoex_test_annotation_free s ta
  | .opTestStart ta => ( undoex_test_annotation_start s ta).state
  | .opTestEnd ta => ( undoex_test_annotation_end s ta).state
  | .opTestSetResult ta r => ( undoex_test_annotation_set_result s ta r).state
  | .opTestSetOutput ta ty out => ( undoex_test_annotation_set_output s ta ty out).state
  | .opTestAddRawData ta d bytes => ( undoex_test_annotation_add_raw_data s ta d bytes).state
  | .opTestAddText ta d ty t => ( undoex_test_annotation_add_text s ta d ty t).state
  | .opTestAddInt ta d v => ( undoex_test_annotation_add_int s ta d v).state
  | .opRecordingStart => (undolr_recording_start s).state
  | .opRecordingStop => (undolr_recording_stop s).state

/-- Run a sequence of modelled API invocations from a state. -/
def runOps (s : LRState) : List LROp → LRState
  | [] => s
  | op :: ops => runOps (step s op) ops

/-- Whether an operation stops the recording session (`undolr_stop`,
directly or through the deprecated `undolr_recording_stop`). -/
def isStopOp : LROp → Bool
  | .opStop _ => true
  | .opRecordingStop => true
  | _ => false

/-- The number of notification bytes written so far to the select
descriptor of context `h` (0 for an unknown handle). -/
def notifyOf (s : LRState) (h : Nat) : Nat :=
  match findCtx h s.contexts with
  | some c => c.notifyBytes
  | none => 0

/-- The asynchronous save state of context `h`, when the handle is
live and a save was started. -/
def saveOpOf (s : LRState) (h : Nat) : Option SaveState :=
  match findCtx h s.contexts with
  | some c => c.saveOp
  | none => none

/-! ### Helper lemmas about the context and descriptor tables -/

theorem findCtx_updateCtx (l : List (Nat × RecordingContextData)) (h h' : Nat)
    (c : RecordingContextData) :
    findCtx h (updateCtx l h' c) =
      if h = h' then (findCtx h l).map (fun _ => c) else findCtx h l := by
  induction l with
  | nil => by_cases hh : h = h' <;> simp [updateCtx, findCtx, hh]
  | cons p t ih =>
    simp only [updateCtx, List.map_cons] at ih ⊢
    by_cases hp : p.1 = h'
    · by_cases hh : h = h'
      · subst hh; simp [findCtx, hp, ih]
      · have hne : ¬ (h' = h) := fun e => hh e.symm
        simp [findCtx, hp, hne, ih, hh]
    · by_cases hh : h = h'
      · subst hh; simp [findCtx, hp, ih]
      · simp [findCtx, hp, ih, hh]

theorem findCtx_removeCtx (l : List (Nat × RecordingContextData)) (h h' : Nat) :
    findCtx h (removeCtx l h') = if h = h' then none else findCtx h l := by
  induction l with
  | nil => by_cases hh : h = h' <;> simp [removeCtx, findCtx, hh]
  | cons p t ih =>
    simp only [removeCtx] at ih ⊢
    by_cases hp : p.1 = h'
    · by_cases hh : h = h'
      · subst hh; simp [hp, ih]
      · have hne : ¬ (h' = h) := fun e => hh e.symm
        simp [findCtx, hp, hne, ih, hh]
    · by_cases hh : h = h'
      · subst hh; simp [findCtx, hp, ih]
      · simp [findCtx, hp, ih, hh]

theorem findCtx_append_of_some {l : List (Nat × RecordingContextData)} {h : Nat}
    {c : RecordingContextData} (hc : findCtx h l = some c)
    (l' : List (Nat × RecordingContextData)) :
    findCtx h (l ++ l') = some c := by
  induction l with
  | nil => simp [findCtx] at hc
  | cons p t ih =>
    by_cases hp : p.1 = h <;> simp_all [findCtx]

theorem findCtx_append_of_none {l : List (Nat × RecordingContextData)} {h : Nat}
    (hc : findCtx h l = none) (l' : List (Nat × RecordingContextData)) :
    findCtx h (l ++ l') = findCtx h l' := by
  induction l with
  | nil => simp [findCtx]
  | cons p t ih =>
    by_cases hp : p.1 = h <;> simp_all [findCtx]

theorem mem_closeFd (l : List Nat) (h f : Nat) :
    f ∈ closeFd l h ↔ f ∈ l ∧ f ≠ h := by
  induction l with
  | nil => simp [closeFd]
  | cons g t ih =>
    by_cases hg : g = h <;> simp_all [closeFd] <;> by_cases hf : f = g <;> simp_all <;>
      tauto

/-! ### Concrete states used to instantiate the theorems -/

/-- A context whose asynchronous save has completed successfully. -/
def ctxComplete : RecordingContextData :=
  { log := [], saveOp := some (SaveState.complete 0), notifyBytes := 1 }

/-- A context whose asynchronous save is still in progress. -/
def ctxInProgress : RecordingContextData :=
  { log := [], saveOp := some (SaveState.inProgress 42), notifyBytes := 0 }

/-- A context on which no asynchronous save has been started. -/
def ctxIdle : RecordingContextData :=
  { log := [], saveOp := none, notifyBytes := 0 }

/-- A recorder state holding one retained context (handle 5) whose
asynchronous save has completed. -/
def stWithComplete : LRState :=
  { initState with contexts := [(5, ctxComplete)], openFds := [5], nextHandle := 6 }

/-- A recorder state holding one retained context (handle 7) whose
asynchronous save is in progress. -/
def stWithInProgress : LRState :=
  { initState with contexts := [(7, ctxInProgress)], openFds := [7], nextHandle := 8 }

/-- A recorder state holding one retained, idle context (handle 3). -/
def stWithIdle : LRState :=
  { initState with contexts := [(3, ctxIdle)], openFds := [3], nextHandle := 4 }

/-- A recorder state with an active recording session. -/
def stRecording : LRState :=
  { initState with recording := true }

/-! ### Claim theorems -/

/-- C8: for every string argument, `undolr_shmem_log_filename_set`
fails with `EINVAL` (an invalid-argument signal) when the filename
does not end with the `.shmem` extension or when it is called after a
recording session has started, leaving the state unchanged; and it
succeeds for a `.shmem`-suffixed filename set before recording
starts. -/
theorem c8_shmem_filename_validation (s : LRState) (f : String) :
    (s.recording = true →
      undolr_shmem_log_filename_set s (some f) =
        { ret := -1, err := ErrSignal.invalidArgument, state := s }) ∧
    (s.recording = false → hasShmemExt f = false →
      undolr_shmem_log_filename_set s (some f) =
        { ret := -1, err := ErrSignal.invalidArgument, state := s }) ∧
    (s.recording = false → hasShmemExt f = true →
      undolr_shmem_log_filename_set s (some f) =
        { ret := 0, err := ErrSignal.noError
          state := { s with shmemFilename := some f } }) := by
  refine ⟨fun hr => ?_, fun hr hext => ?_, fun hr hext => ?_⟩
  · simp [undolr_shmem_log_filename_set, hr]
  · simp [undolr_shmem_log_filename_set, hr, hext]
  · simp [undolr_shmem_log_filename_set, hr, hext]

/-- Witness for C8: from the initial state, `"foo.txt"` is rejected
with `EINVAL`, `"foo.shmem"` is accepted, and after recording has
started `"foo.shmem"` is rejected with `EINVAL`. -/
theorem c8_shmem_filename_validation_witness :
    undolr_shmem_log_filename_set initState (some "foo.txt") =
      { ret := -1, err := ErrSignal.invalidArgument, state := initState } ∧
    undolr_shmem_log_filename_set initState (some "foo.shmem") =
      { ret := 0, err := ErrSignal.noError
        state := { initState with shmemFilename := some "foo.shmem" } } ∧
    undolr_shmem_log_filename_set stRecording (some "foo.shmem") =
      { ret := -1, err := ErrSignal.invalidArgument, state := stRecording } :=
  ⟨(c8_shmem_filename_validation initState "foo.txt").2.1 rfl (by decide),
   (c8_shmem_filename_validation initState "foo.shmem").2.2 rfl (by decide),
   (c8_shmem_filename_validation stRecording "foo.shmem").1 rfl⟩

/-- C7: once the asynchronous save of a context has completed, every
call to `undolr_poll_saving_complete` on that context reports the save
as complete with the same recorded result value and leaves the state
unchanged, so repeated polling after completion is idempotent. -/
theorem c7_poll_complete_idempotent (s : LRState) (h : Nat)
    (c : RecordingContextData) (r : Int)
    (hc : findCtx h s.contexts = some c)
    (hdone : c.saveOp = some (SaveState.complete r)) :
    undolr_poll_saving_complete s h =
      { ret := 0, err := ErrSignal.noError, complete := 1, result := some r, state := s } ∧
    undolr_poll_saving_complete (undolr_poll_saving_complete s h).state h =
      undolr_poll_saving_complete s h := by
  have h1 : undolr_poll_saving_complete s h =
      { ret := 0, err := ErrSignal.noError, complete := 1, result := some r, state := s } := by
    simp [undolr_poll_saving_complete, hc, hdone]
  refine ⟨h1, ?_⟩
  rw [h1]
  exact h1

/-- Witness for C7 at the concrete state `stWithComplete` and
handle 5. -/
theorem c7_poll_complete_idempotent_witness :
    undolr_poll_saving_complete stWithComplete 5 =
      { ret := 0, err := ErrSignal.noError, complete := 1, result := some 0
        state := stWithComplete } ∧
    undolr_poll_saving_complete (undolr_poll_saving_complete stWithComplete 5).state 5 =
      undolr_poll_saving_complete stWithComplete 5 :=
  c7_poll_complete_idempotent stWithComplete 5 ctxComplete 0 (by decide) (by decide)

/-- C5: a second `undolr_save_async` call on a context whose
asynchronous save is still in progress is rejected with an
already-in-progress signal, and the rejected call leaves the recorder
state, and with it the first save's state and progress, unaffected. -/
theorem c5_save_async_rejected_while_in_progress (s : LRState) (h : Nat)
    (c : RecordingContextData) (p : Int) (fn : String)
    (hc : findCtx h s.contexts = some c)
    (hprog : c.saveOp = some (SaveState.inProgress p)) :
    undolr_save_async s h fn =
      { ret := -1, err := ErrSignal.alreadyInProgress, state := s } ∧
    saveOpOf (undolr_save_async s h fn).state h = some (SaveState.inProgress p) := by
  have h1 : undolr_save_async s h fn =
      { ret := -1, err := ErrSignal.alreadyInProgress, state := s } := by
    simp [undolr_save_async, hc, hprog]
  refine ⟨h1, ?_⟩
  rw [h1]
  simp [saveOpOf, hc, hprog]

/-- Witness for C5 at the concrete state `stWithInProgress` (handle 7,
progress 42). -/
theorem c5_save_async_rejected_while_in_progress_witness :
    undolr_save_async stWithInProgress 7 "second.rec" =
      { ret := -1, err := ErrSignal.alreadyInProgress, state := stWithInProgress } ∧
    saveOpOf (undolr_save_async stWithInProgress 7 "second.rec").state 7 =
      some (SaveState.inProgress 42) :=
  c5_save_async_rejected_while_in_progress stWithInProgress 7 ctxInProgress 42
    "second.rec" (by decide) (by decide)

/-- A test-annotation object used to instantiate the theorems. -/
def taDemo : TestAnnotationObj :=
  { testName := "suite.case", addRunSuffix := true }

/-- C3: while no recording session is active, every annotation add
call — `undoex_annotation_add_raw_data`/`add_text`/`add_int` and every
test-annotation add/start/end/set call — returns `-1` with
`errno == ENOTSUP` (a not-recording signal) and leaves the state
unchanged; `undoex_test_annotation_new` and
`undoex_test_annotation_free` succeed regardless of session state. -/
theorem c3_not_recording_rejects_adds (s : LRState) (ta : TestAnnotationObj) :
    (s.recording = false →
      (∀ name detail d, undoex_annotation_add_raw_data s name detail d =
        { ret := -1, err := ErrSignal.notRecording, state := s }) ∧
      (∀ name detail ty t, undoex_annotation_add_text s name detail ty t =
        { ret := -1, err := ErrSignal.notRecording, state := s }) ∧
      (∀ name detail v, undoex_annotation_add_int s name detail v =
        { ret := -1, err := ErrSignal.notRecording, state := s }) ∧
      ( undoex_test_annotation_start s ta =
        { ret := -1, err := ErrSignal.notRecording, state := s }) ∧
      ( undoex_test_annotation_end s ta =
        { ret := -1, err := ErrSignal.notRecording, state := s }) ∧
      (∀ r, undoex_test_annotation_set_result s ta r =
        { ret := -1, err := ErrSignal.notRecording, state := s }) ∧
      (∀ ty out, undoex_test_annotation_set_output s ta ty out =
        { ret := -1, err := ErrSignal.notRecording, state := s }) ∧
      (∀ d bytes, undoex_test_annotation_add_raw_data s ta d bytes =
        { ret := -1, err := ErrSignal.notRecording, state := s }) ∧
      (∀ d ty t, undoex_test_annotation_add_text s ta d ty t =
        { ret := -1, err := ErrSignal.notRecording, state := s }) ∧
      (∀ d v, undoex_test_annotation_add_int s ta d v =
        { ret := -1, err := ErrSignal.notRecording, state := s })) ∧
    (∀ base suffix, undoex_test_annotation_new s base suffix =
      (some { testName := base, addRunSuffix := suffix }, s)) ∧
    undoex_test_annotation_free s ta = s := by
  refine ⟨fun hnr => ?_, fun base suffix => rfl, rfl⟩
  simp [ undoex_annotation_add_raw_data, undoex_annotation_add_text,
    undoex_annotation_add_int, undoex_test_annotation_start,
    undoex_test_annotation_end, undoex_test_annotation_set_result,
    undoex_test_annotation_set_output, undoex_test_annotation_add_raw_data,
    undoex_test_annotation_add_text, undoex_test_annotation_add_int,
    addAnnEntry, hnr]

/-- Witness for C3 at the initial (not recording) state: an int
annotation is rejected with `ENOTSUP`, a test-annotation start is
rejected with `ENOTSUP`, and `new` succeeds. -/
theorem c3_not_recording_rejects_adds_witness :
    undoex_annotation_add_int initState "counter" (some "tick") 5 =
      { ret := -1, err := ErrSignal.notRecording, state := initState } ∧
    undoex_test_annotation_start initState taDemo =
      { ret := -1, err := ErrSignal.notRecording, state := initState } ∧
    undoex_test_annotation_new initState "suite.case" true =
      (some taDemo, initState) :=
  ⟨((c3_not_recording_rejects_adds initState taDemo).1 rfl).2.2.1 "counter"
      (some "tick") 5,
   ((c3_not_recording_rejects_adds initState taDemo).1 rfl).2.2.2.1,
   (c3_not_recording_rejects_adds initState taDemo).2.1 "suite.case" true⟩

/-- C9: while a session is active, each test-annotation lifecycle call
emits exactly one annotation whose name is the test name and whose
detail is the fixed string `"u-test-start"`, `"u-test-end"`,
`"u-test-result"` or `"u-test-output"` respectively (or the
caller-supplied detail for the `add_*` calls), and the session stays
active after `undoex_test_annotation_end`, so every such call made
after `end` remains valid. -/
theorem c9_test_lifecycle_emits_one (s : LRState) (ta : TestAnnotationObj)
    (hrec : s.recording = true) :
    ( undoex_test_annotation_start s ta =
      { ret := 0, err := ErrSignal.noError
        state := { s with liveLog := s.liveLog ++
          [{ name := ta.testName, detail := "u-test-start"
             content := AnnContent.noData }] } }) ∧
    ( undoex_test_annotation_end s ta =
      { ret := 0, err := ErrSignal.noError
        state := { s with liveLog := s.liveLog ++
          [{ name := ta.testName, detail := "u-test-end"
             content := AnnContent.noData }] } }) ∧
    (∀ r, undoex_test_annotation_set_result s ta r =
      { ret := 0, err := ErrSignal.noError
        state := { s with liveLog := s.liveLog ++
          [{ name := ta.testName, detail := "u-test-result"
             content := AnnContent.intVal (test_result_code r) }] } }) ∧
    (∀ ty out, undoex_test_annotation_set_output s ta ty out =
      { ret := 0, err := ErrSignal.noError
        state := { s with liveLog := s.liveLog ++
          [{ name := ta.testName, detail := "u-test-output"
             content := AnnContent.text ty out }] } }) ∧
    (∀ d v, undoex_test_annotation_add_int s ta d v =
      { ret := 0, err := ErrSignal.noError
        state := { s with liveLog := s.liveLog ++
          [{ name := ta.testName, detail := d
             content := AnnContent.intVal v }] } }) ∧
    (∀ d bytes, undoex_test_annotation_add_raw_data s ta d bytes =
      { ret := 0, err := ErrSignal.noError
        state := { s with liveLog := s.liveLog ++
          [{ name := ta.testName, detail := d
             content := match bytes with
               | none => AnnContent.noData
               | some dd => AnnContent.raw dd }] } }) ∧
    (∀ d ty t, undoex_test_annotation_add_text s ta d ty t =
      { ret := 0, err := ErrSignal.noError
        state := { s with liveLog := s.liveLog ++
          [{ name := ta.testName, detail := d
             content := match t with
               | none => AnnContent.noData
               | some tt => AnnContent.text ty tt }] } }) ∧
    (( undoex_test_annotation_end s ta).state.recording = true) := by
  simp [ undoex_test_annotation_start, undoex_test_annotation_end,
    undoex_test_annotation_set_result, undoex_test_annotation_set_output,
    undoex_test_annotation_add_raw_data, undoex_test_annotation_add_text,
    undoex_test_annotation_add_int, addAnnEntry, hrec]

/-- Witness for C9 at the recording state `stRecording`: the start
call emits the single `"u-test-start"` annotation and the session
stays active after `end`. -/
theorem c9_test_lifecycle_emits_one_witness :
    undoex_test_annotation_start stRecording taDemo =
      { ret := 0, err := ErrSignal.noError
        state := { stRecording with liveLog :=
          [{ name := "suite.case", detail := "u-test-start"
             content := AnnContent.noData }] } } ∧
    ( undoex_test_annotation_end stRecording taDemo).state.recording = true :=
  ⟨(c9_test_lifecycle_emits_one stRecording taDemo rfl).1,
   (c9_test_lifecycle_emits_one stRecording taDemo rfl).2.2.2.2.2.2.2⟩

/-- The operation sequence of the C2 scenario: start, annotate 5,
save `run1.rec`, annotate 6, save `run2.rec`, stop without retaining. -/
def c2ScenarioOps : List LROp :=
  [LROp.opStart, LROp.opAddInt "counter" (some "tick") 5, LROp.opSave "run1.rec",
   LROp.opAddInt "counter" (some "tick") 6, LROp.opSave "run2.rec",
   LROp.opStop false]

/-- C2: `undolr_save` succeeds only while a session is active (it
fails with a not-recording signal otherwise); each call serializes the
live log up to the current point into an independent snapshot without
stopping or otherwise altering the ongoing recording; and in the
scenario start → add 5 → save run1 → add 6 → save run2 → stop,
`run1.rec` holds exactly one `"counter"` annotation (value 5) and
`run2.rec` holds two (values 5 and 6), each snapshot an independent
full copy of the log. -/
theorem c2_save_live_snapshots (s : LRState) (fn : String) :
    (s.recording = false → undolr_save s fn =
      { ret := -1, err := ErrSignal.notRecording, state := s }) ∧
    (s.recording = true → undolr_save s fn =
      { ret := 0, err := ErrSignal.noError
        state := { s with savedFiles := s.savedFiles ++ [(fn, s.liveLog)] } }) ∧
    (runOps initState c2ScenarioOps).savedFiles =
      [("run1.rec",
        [{ name := "counter", detail := "tick", content := AnnContent.intVal 5 }]),
       ("run2.rec",
        [{ name := "counter", detail := "tick", content := AnnContent.intVal 5 },
         { name := "counter", detail := "tick", content := AnnContent.intVal 6 }])] ∧
    (runOps initState c2ScenarioOps).recording = false := by
  refine ⟨fun hnr => ?_, fun hr => ?_, by decide, by decide⟩
  · simp [undolr_save, hnr]
  · simp [undolr_save, hr]

/-- Witness for C2: saving fails from the initial state and succeeds
from a recording state, appending the snapshot. -/
theorem c2_save_live_snapshots_witness :
    undolr_save initState "x.rec" =
      { ret := -1, err := ErrSignal.notRecording, state := initState } ∧
    undolr_save stRecording "x.rec" =
      { ret := 0, err := ErrSignal.noError
        state := { stRecording with savedFiles := [("x.rec", [])] } } :=
  ⟨(c2_save_live_snapshots initState "x.rec").1 rfl,
   (c2_save_live_snapshots stRecording "x.rec").2.1 rfl⟩

/-- C10: `undolr_recording_start` behaves identically to
`undolr_start` except that when recording is already in operation it
returns 0 (success) where `undolr_start` returns -1 (failure), the
resulting state being the same in every case; and
`undolr_recording_stop` behaves identically to `undolr_stop(NULL)`,
stopping and discarding without retaining a context. -/
theorem c10_deprecated_equivalence (s : LRState) :
    ((undolr_recording_start s).state = (undolr_start s).state) ∧
    (s.recording = true →
      (undolr_recording_start s).ret = 0 ∧ (undolr_start s).ret = -1 ∧
      (undolr_start s).err = ErrSignal.alreadyRecording) ∧
    (s.recording = false → undolr_recording_start s = undolr_start s) ∧
    ((undolr_recording_stop s).ret = (undolr_stop s false).ret ∧
     (undolr_recording_stop s).err = (undolr_stop s false).err ∧
     (undolr_recording_stop s).state = (undolr_stop s false).state ∧
     (undolr_stop s false).ctx = none) := by
  by_cases hr : s.recording <;>
    simp [undolr_recording_start, undolr_start, undolr_recording_stop,
      undolr_stop, hr]

/-- Witness for C10 at the concrete states `stRecording` (already
recording: the deprecated call succeeds where `undolr_start` fails)
and `initState` (both agree). -/
theorem c10_deprecated_equivalence_witness :
    (undolr_recording_start stRecording).ret = 0 ∧
    (undolr_start stRecording).ret = -1 ∧
    (undolr_recording_start initState).state = (undolr_start initState).state ∧
    (undolr_recording_stop initState).ret = (undolr_stop initState false).ret :=
  ⟨((c10_deprecated_equivalence stRecording).2.1 rfl).1,
   ((c10_deprecated_equivalence stRecording).2.1 rfl).2.1,
   (c10_deprecated_equivalence initState).1,
   (c10_deprecated_equivalence initState).2.2.2.1⟩

/-- Any single modelled operation other than a stop leaves an active
session active. -/
theorem step_preserves_recording (s : LRState) (op : LROp)
    (hop : isStopOp op = false) (hrec : s.recording = true) :
    (step s op).recording = true := by
  cases op <;>
    simp_all [step, isStopOp, undolr_start, undolr_save, undolr_save_async,
      undolr_save_completes, undolr_poll_saving_complete,
      undolr_poll_saving_progress, undolr_get_select_descriptor, undolr_discard,
      undolr_save_on_termination, undolr_save_on_termination_cancel,
      undolr_shmem_log_filename_set, undolr_shmem_log_size_set,
      undoex_annotation_add_raw_data, undoex_annotation_add_text,
      undoex_annotation_add_int, addAnnEntry, undoex_test_annotation_new,
      undoex_test_annotation_free, undoex_test_annotation_start,
      undoex_test_annotation_end, undoex_test_annotation_set_result,
      undoex_test_annotation_set_output, undoex_test_annotation_add_raw_data,
      undoex_test_annotation_add_text, undoex_test_annotation_add_int,
      undolr_recording_start] <;>
    (repeat' split) <;> simp_all

/-- A sequence of modelled operations containing no stop leaves an
active session active. -/
theorem runOps_preserves_recording (ops : List LROp) (s : LRState)
    (hrec : s.recording = true)
    (hnostop : ∀ op ∈ ops, isStopOp op = false) :
    (runOps s ops).recording = true := by
  induction ops generalizing s with
  | nil => simpa [runOps] using hrec
  | cons op t ih =>
    simp only [runOps]
    exact ih (step s op)
      (step_preserves_recording s op (hnostop op (by simp)) hrec)
      (fun o ho => hnostop o (by simp [ho]))

/-- C1: after a successful `undolr_start`, any sequence of operations
without an intervening `undolr_stop` leaves the session active, so a
second `undolr_start` fails (returns -1) with an already-recording
signal and the recording-session state after the failed call equals
the state before it — no partial session is created. -/
theorem c1_start_twice_fails (s : LRState) (ops : List LROp)
    (hfirst : (undolr_start s).ret = 0)
    (hnostop : ∀ op ∈ ops, isStopOp op = false) :
    (undolr_start (runOps (undolr_start s).state ops)).ret = -1 ∧
    (undolr_start (runOps (undolr_start s).state ops)).err =
      ErrSignal.alreadyRecording ∧
    (undolr_start (runOps (undolr_start s).state ops)).state =
      runOps (undolr_start s).state ops := by
  have hnr : s.recording = false := by
    cases hsr : s.recording
    · rfl
    · exfalso; simp [undolr_start, hsr] at hfirst
  have h1 : ((undolr_start s).state).recording = true := by
    simp [undolr_start, hnr]
  have h2 : (runOps (undolr_start s).state ops).recording = true :=
    runOps_preserves_recording ops _ h1 hnostop
  have key : ∀ t : LRState, t.recording = true →
      undolr_start t = { ret := -1, err := ErrSignal.alreadyRecording, state := t } := by
    intro t ht; simp [undolr_start, ht]
  have k2 := key _ h2
  exact ⟨by rw [k2], by rw [k2], by rw [k2]⟩

/-- Witness for C1: starting from the initial state, after a start and
an intervening save (not a stop), a second start fails with the
already-recording signal and leaves the state unchanged. -/
theorem c1_start_twice_fails_witness :
    (undolr_start (runOps (undolr_start initState).state
      [LROp.opSave "mid.rec"])).ret = -1 ∧
    (undolr_start (runOps (undolr_start initState).state
      [LROp.opSave "mid.rec"])).err = ErrSignal.alreadyRecording ∧
    (undolr_start (runOps (undolr_start initState).state
      [LROp.opSave "mid.rec"])).state =
      runOps (undolr_start initState).state [LROp.opSave "mid.rec"] :=
  c1_start_twice_fails initState [LROp.opSave "mid.rec"] (by decide) (by decide)

/-- C4: discarding a retained context (whose asynchronous save is not
in progress) succeeds and releases its resources: the context data is
freed and its select descriptor closed; every subsequent
`undolr_poll_saving_complete`, `undolr_poll_saving_progress`,
`undolr_get_select_descriptor`, `undolr_save_async` or second
`undolr_discard` on that handle fails with an invalid-handle signal
(so discard is safe to call exactly once); and no operation other than
discarding that handle frees the context. -/
theorem c4_discard_invalidates (s : LRState) (h : Nat) (c : RecordingContextData)
    (hc : findCtx h s.contexts = some c)
    (hidle : ∀ p, c.saveOp ≠ some (SaveState.inProgress p)) :
    (undolr_discard s h).ret = 0 ∧
    findCtx h ((undolr_discard s h).state).contexts = none ∧
    (undolr_poll_saving_complete ((undolr_discard s h).state) h =
      { ret := -1, err := ErrSignal.invalidHandle, complete := 0, result := none
        state := (undolr_discard s h).state }) ∧
    (undolr_poll_saving_progress ((undolr_discard s h).state) h =
      { ret := -1, err := ErrSignal.invalidHandle, complete := 0, progress := none
        result := none, state := (undolr_discard s h).state }) ∧
    (undolr_get_select_descriptor ((undolr_discard s h).state) h =
      { ret := -1, err := ErrSignal.invalidHandle, fd := none
        state := (undolr_discard s h).state }) ∧
    (∀ fn, undolr_save_async ((undolr_discard s h).state) h fn =
      { ret := -1, err := ErrSignal.invalidHandle
        state := (undolr_discard s h).state }) ∧
    (undolr_discard ((undolr_discard s h).state) h =
      { ret := -1, err := ErrSignal.invalidHandle
        state := (undolr_discard s h).state }) ∧
    (h ∉ ((undolr_discard s h).state).openFds) ∧
    (∀ op, op ≠ LROp.opDiscard h →
      (findCtx h (step s op).contexts).isSome = true) := by
  have hds : undolr_discard s h =
      { ret := 0, err := ErrSignal.noError
        state := { s with contexts := removeCtx s.contexts h
                          openFds := closeFd s.openFds h } } := by
    cases hso : c.saveOp with
    | none => simp [undolr_discard, hc, hso]
    | some ss =>
      cases ss with
      | inProgress p => exact absurd hso (hidle p)
      | complete r => simp [undolr_discard, hc, hso]
  have hnone : findCtx h (removeCtx s.contexts h) = none := by
    simp [findCtx_removeCtx]
  refine ⟨by rw [hds], ?_, ?_, ?_, ?_, ?_, ?_, ?_, ?_⟩
  · rw [hds]; simpa using hnone
  · rw [hds]; simp [undolr_poll_saving_complete, hnone]
  · rw [hds]; simp [undolr_poll_saving_progress, hnone]
  · rw [hds]; simp [undolr_get_select_descriptor, hnone]
  · intro fn; rw [hds]; simp [undolr_save_async, hnone]
  · rw [hds]; simp [undolr_discard, hnone]
  · rw [hds]
    intro hmem
    exact ((mem_closeFd s.openFds h h).1 hmem).2 rfl
  · intro op hne
    have happ := fun l' => findCtx_append_of_some hc l'
    cases op <;>
      simp_all [step, undolr_start, undolr_stop, undolr_save, undolr_save_async,
        undolr_save_completes, undolr_poll_saving_complete,
        undolr_poll_saving_progress, undolr_get_select_descriptor, undolr_discard,
        undolr_save_on_termination, undolr_save_on_termination_cancel,
        undolr_shmem_log_filename_set, undolr_shmem_log_size_set,
        undoex_annotation_add_raw_data, undoex_annotation_add_text,
        undoex_annotation_add_int, addAnnEntry, undoex_test_annotation_new,
        undoex_test_annotation_free, undoex_test_annotation_start,
        undoex_test_annotation_end, undoex_test_annotation_set_result,
        undoex_test_annotation_set_output, undoex_test_annotation_add_raw_data,
        undoex_test_annotation_add_text, undoex_test_annotation_add_int,
        undolr_recording_start, undolr_recording_stop, findCtx_updateCtx,
        findCtx_removeCtx] <;>
      (repeat' split) <;>
      (try simp_all [findCtx_updateCtx, findCtx_removeCtx]) <;>
      (repeat' split) <;>
      (try simp_all) <;>
      omega

/-- Witness for C4 at the concrete state `stWithIdle` (handle 3): the
discard succeeds and a subsequent poll on the handle fails with the
invalid-handle signal. -/
theorem c4_discard_invalidates_witness :
    (undolr_discard stWithIdle 3).ret = 0 ∧
    findCtx 3 ((undolr_discard stWithIdle 3).state).contexts = none ∧
    (undolr_poll_saving_complete ((undolr_discard stWithIdle 3).state) 3 =
      { ret := -1, err := ErrSignal.invalidHandle, complete := 0, result := none
        state := (undolr_discard stWithIdle 3).state }) :=
  ⟨(c4_discard_invalidates stWithIdle 3 ctxIdle (by decide) (by simp [ctxIdle])).1,
   (c4_discard_invalidates stWithIdle 3 ctxIdle (by decide) (by simp [ctxIdle])).2.1,
   (c4_discard_invalidates stWithIdle 3 ctxIdle (by decide) (by simp [ctxIdle])).2.2.1⟩

/-- C6: the notification byte on a context's select descriptor is
written exactly at the transition of its asynchronous save into the
`Complete` state — the completion event on an in-progress save writes
exactly one byte; no operation ever writes a byte at any other time;
once complete, the completion event cannot fire again; and a
successful `undolr_discard` closes the descriptor, after which
`undolr_get_select_descriptor` fails with an invalid-handle signal. -/
theorem c6_select_descriptor_byte (s : LRState) (h : Nat) :
    (∀ fn r c p, findCtx h s.contexts = some c →
      c.saveOp = some (SaveState.inProgress p) →
      notifyOf (undolr_save_completes s h fn r) h = notifyOf s h + 1 ∧
      saveOpOf (undolr_save_completes s h fn r) h = some (SaveState.complete r)) ∧
    (∀ op, notifyOf s h < notifyOf (step s op) h →
      (∃ fn r, op = LROp.opSaveCompletes h fn r) ∧
      (∃ p, saveOpOf s h = some (SaveState.inProgress p))) ∧
    (∀ fn r r', saveOpOf s h = some (SaveState.complete r') →
      undolr_save_completes s h fn r = s) ∧
    ((undolr_discard s h).ret = 0 →
      h ∉ ((undolr_discard s h).state).openFds ∧
      undolr_get_select_descriptor ((undolr_discard s h).state) h =
        { ret := -1, err := ErrSignal.invalidHandle, fd := none
          state := (undolr_discard s h).state }) := by
  refine ⟨?_, ?_, ?_, ?_⟩
  · intro fn r c p hc hp
    constructor
    · simp [undolr_save_completes, hc, hp, notifyOf, findCtx_updateCtx]
    · simp [undolr_save_completes, hc, hp, saveOpOf, findCtx_updateCtx]
  · intro op hlt
    cases op
    case opSaveCompletes h' fn r =>
      rcases hfc : findCtx h' s.contexts with _ | c
      · simp [step, undolr_save_completes, hfc] at hlt
      · rcases hso : c.saveOp with _ | ss
        · simp [step, undolr_save_completes, hfc, hso] at hlt
        · cases ss with
          | complete rr => simp [step, undolr_save_completes, hfc, hso] at hlt
          | inProgress p =>
            by_cases hh : h' = h
            · subst hh
              exact ⟨⟨fn, r, rfl⟩, ⟨p, by simp [saveOpOf, hfc, hso]⟩⟩
            · exfalso
              have hh2 : ¬ (h = h') := fun e => hh e.symm
              simp [step, undolr_save_completes, hfc, hso, notifyOf,
                findCtx_updateCtx, hh2] at hlt
    case opStop retain =>
      exfalso
      by_cases hr : s.recording
      · cases retain
        · simp [step, undolr_stop, hr, notifyOf] at hlt
        · simp only [step, undolr_stop, hr, if_true] at hlt
          rcases hfc : findCtx h s.contexts with _ | c
          · simp only [notifyOf] at hlt
            rw [hfc, findCtx_append_of_none hfc] at hlt
            simp only [findCtx] at hlt
            split at hlt <;> (try simp_all) <;>
              (rename_i heq2; rcases heq2 with ⟨h1, h2⟩; subst h2; simp at hlt)
          · simp only [notifyOf] at hlt
            rw [hfc, findCtx_append_of_some hfc] at hlt
            simp at hlt
      · simp [step, undolr_stop, hr, notifyOf] at hlt
    case opSaveAsync h' fn =>
      exfalso
      rcases hfc : findCtx h' s.contexts with _ | c
      · simp [step, undolr_save_async, hfc] at hlt
      · rcases hso : c.saveOp with _ | ss
        · by_cases hh : h = h' <;>
            simp [step, undolr_save_async, hfc, hso, notifyOf,
              findCtx_updateCtx, hh] at hlt <;> simp_all
        · cases ss with
          | inProgress p => simp [step, undolr_save_async, hfc, hso] at hlt
          | complete rr =>
            by_cases hh : h = h' <;>
              simp [step, undolr_save_async, hfc, hso, notifyOf,
                findCtx_updateCtx, hh] at hlt <;> simp_all
    case opDiscard h' =>
      exfalso
      rcases hfc : findCtx h' s.contexts with _ | c
      · simp [step, undolr_discard, hfc] at hlt
      · rcases hso : c.saveOp with _ | ss
        · by_cases hh : h = h' <;>
            simp [step, undolr_discard, hfc, hso, notifyOf,
              findCtx_removeCtx, hh] at hlt
        · cases ss with
          | inProgress p => simp [step, undolr_discard, hfc, hso] at hlt
          | complete rr =>
            by_cases hh : h = h' <;>
              simp [step, undolr_discard, hfc, hso, notifyOf,
                findCtx_removeCtx, hh] at hlt
    all_goals
      exfalso
      simp only [step, undolr_start, undolr_save, undolr_poll_saving_complete,
        undolr_poll_saving_progress, undolr_get_select_descriptor,
        undolr_save_on_termination, undolr_save_on_termination_cancel,
        undolr_shmem_log_filename_set, undolr_shmem_log_size_set,
        undoex_annotation_add_raw_data, undoex_annotation_add_text,
        undoex_annotation_add_int, addAnnEntry, undoex_test_annotation_new,
        undoex_test_annotation_free, undoex_test_annotation_start,
        undoex_test_annotation_end, undoex_test_annotation_set_result,
        undoex_test_annotation_set_output, undoex_test_annotation_add_raw_data,
        undoex_test_annotation_add_text, undoex_test_annotation_add_int,
        undolr_recording_start, undolr_recording_stop] at hlt
      (repeat' split at hlt) <;> simp_all [notifyOf]
  · intro fn r r' hso
    rcases hfc : findCtx h s.contexts with _ | c
    · simp [undolr_save_completes, hfc]
    · have hcso : c.saveOp = some (SaveState.complete r') := by
        simpa [saveOpOf, hfc] using hso
      simp [undolr_save_completes, hfc, hcso]
  · intro hret
    have hds : (undolr_discard s h).state =
        { s with contexts := removeCtx s.contexts h
                 openFds := closeFd s.openFds h } := by
      rcases hfc : findCtx h s.contexts with _ | c
      · simp [undolr_discard, hfc] at hret
      · rcases hso : c.saveOp with _ | ss
        · simp [undolr_discard, hfc, hso]
        · cases ss with
          | inProgress p => simp [undolr_discard, hfc, hso] at hret
          | complete rr => simp [undolr_discard, hfc, hso]
    constructor
    · rw [hds]
      intro hmem
      exact ((mem_closeFd s.openFds h h).1 hmem).2 rfl
    · rw [hds]
      simp [undolr_get_select_descriptor, findCtx_removeCtx]

/-- Witness for C6 at the concrete state `stWithInProgress`
(handle 7): completing the in-progress save writes exactly one byte
and records the result. -/
theorem c6_select_descriptor_byte_witness :
    notifyOf (undolr_save_completes stWithInProgress 7 "out.rec" 0) 7 =
      notifyOf stWithInProgress 7 + 1 ∧
    saveOpOf (undolr_save_completes stWithInProgress 7 "out.rec" 0) 7 =
      some (SaveState.complete 0) :=
  (c6_select_descriptor_byte stWithInProgress 7).1 "out.rec" 0 ctxInProgress 42
    (by decide) (by decide)

end UndoBindings
